import Mathlib

/-!
Shallow embedding of the change-detection / notification core of the
github-repo-bot repository (src/bot/monitor.py, src/bot/database.py,
src/bot/handlers.py, src/github/api.py), together with theorems settling
the specification claims about it.
-/

namespace RepoBot

/-! ### Python value helpers -/

/-- Python truthiness of an optional string: `None` and `""` are falsy. -/
def pyTruthyStr : Option String → Bool
  | none => false
  | some s => s != ""

/-- Python truthiness of an optional integer: `None` and `0` are falsy. -/
def pyTruthyInt : Option Int → Bool
  | none => false
  | some n => n != 0

/-- Python `a or b` on optional strings (used for `token or config.GITHUB_TOKEN`). -/
def pyOrStr (a b : Option String) : Option String :=
  if pyTruthyStr a then a else b

/-- Python f-string rendering of an optional string: `None` prints as `"None"`. -/
def pyStr : Option String → String
  | none => "None"
  | some s => s

/-- Digit-string accumulator for `pyIntOfString`. -/
def parseDigitsAux : List Char → Nat → Option Nat
  | [], acc => some acc
  | c :: cs, acc =>
      if c.isDigit then parseDigitsAux cs (acc * 10 + (c.toNat - 48)) else none

/-- Python `int(s)` as a partial function: defined on an optional minus sign
followed by decimal digits (the shapes `str(int)` produces, which is all this
program ever stores); any other string raises ValueError, modelled as `none`. -/
def pyIntOfString (s : String) : Option Int :=
  match s.data with
  | [] => none
  | '-' :: cs =>
      if cs.isEmpty then none else (parseDigitsAux cs 0).map (fun n => -(n : Int))
  | cs => (parseDigitsAux cs 0).map (fun n => (n : Int))

/-- Python `int(s)` on the strings this program produces via `str(...)` of an
int (total on those; the default is never reached on data written by the
store). -/
def pyInt (s : String) : Int := (pyIntOfString s).getD 0

/-! ### github/api.py — `GitHubAPI` -/

/-- Outcome of the single HTTP GET performed by `GitHubAPI._make_request`. -/
inductive HttpResult (α : Type) where
  | ok (payload : α)
  | notFound
  | timeout
  | otherError
deriving DecidableEq

/-- `GitHubAPI._make_request` (github/api.py lines 37-64): status 200 returns the
JSON payload; 404 returns `None`; `asyncio.TimeoutError` is caught, logged and
returns `None`; any other exception or status likewise returns `None`.  The
caller cannot distinguish "not found" from a transient transport error. -/
def makeRequest {α : Type} : HttpResult α → Option α
  | .ok p => some p
  | .notFound => none
  | .timeout => none
  | .otherError => none

/-- `GitHubAPI.__init__` (github/api.py line 16): `self.token = token or config.GITHUB_TOKEN`. -/
def gitHubApiToken (token globalToken : Option String) : Option String :=
  pyOrStr token globalToken

/-- `BotHandlers.__init__` (handlers.py line 32): `self.github_api = GitHubAPI()` —
one shared instance constructed with no per-user token, so its token is the
global `config.GITHUB_TOKEN` (or `None` when unset).  The monitor receives this
same instance. -/
def handlersSharedApiToken (globalToken : Option String) : Option String :=
  gitHubApiToken none globalToken

/-- One outgoing fetch: the endpoint requested and the credential (token) the
request's `Authorization` header is built from. -/
structure FetchRequest where
  endpoint : String
  credential : Option String
deriving DecidableEq

/-- The fetch issued by `RepositoryMonitor._check_stars_updates` (monitor.py
lines 266-278): if `github_username` is falsy the method returns without
fetching; otherwise it calls
`self.github_api.get_authenticated_user_starred_repos(page=1, per_page=30)`,
which issues a GET under `self.github_api`'s token.  No subscriber credential
store is consulted anywhere on this path. -/
def starredReposEndpoint : String :=
  "user/starred?page=1&per_page=30&sort=created&direction=desc"

def starPollRequest (apiToken : Option String) (githubUsername : Option String) :
    Option FetchRequest :=
  if pyTruthyStr githubUsername then
    some ⟨starredReposEndpoint, apiToken⟩
  else none

/-- `TokenManager.get_token` for a population in which no subscriber has stored
a personal token: every lookup yields `None`.  The monitor's polling path never
calls it. -/
def emptyTokenStore : Int → Option String := fun _ => none

/-! ### monitor.py — change detectors -/

/-- A starred repository as fetched; the detector inspects only `id`
(`str(repo.get("id"))`). -/
structure StarRepo where
  id : Nat
deriving DecidableEq

/-- Observable effect of one `_check_stars_updates` run: the repositories passed
to `_send_starred_repo_notification` in call order, and the argument of the
`update_last_starred_repo_ids` write if one is made. -/
structure StarsCheckResult where
  emissions : List StarRepo
  markerWrite : Option (Finset String)
deriving DecidableEq

/-- `RepositoryMonitor._check_stars_updates` (monitor.py lines 261-321).
`fetch` is the outcome of the starred-repos GET; `makeRequest` collapses 404,
timeout and other errors to `None` before the method sees it.  The method:
returns early when `github_username` is falsy; on a falsy page (`None` or `[]`)
writes `set()` when a baseline exists, else nothing; on first check stores the
full page id set as baseline with no emissions; otherwise collects new ids
newest-first until the first already-known id (`break`), emits them reversed
(chronological), and unconditionally writes the full page id set. -/
def checkStarsUpdates (githubUsername : Option String)
    (lastKnownIds : Option (Finset String))
    (fetch : HttpResult (List StarRepo)) : StarsCheckResult :=
  if pyTruthyStr githubUsername = false then ⟨[], none⟩
  else
    match makeRequest fetch with
    | none =>
        if lastKnownIds.isSome then ⟨[], some ∅⟩ else ⟨[], none⟩
    | some page =>
        if page.isEmpty then
          if lastKnownIds.isSome then ⟨[], some ∅⟩ else ⟨[], none⟩
        else
          let currentPageIds : Finset String := (page.map (fun r => toString r.id)).toFinset
          match lastKnownIds with
          | none => ⟨[], some currentPageIds⟩
          | some known =>
              let trulyNew := page.takeWhile (fun r => decide (toString r.id ∉ known))
              ⟨trulyNew.reverse, some currentPageIds⟩

/-- A release as fetched; the detector inspects only `id`. -/
structure Release where
  id : Nat
deriving DecidableEq

/-- An issue as fetched; the detector inspects only `id`. -/
structure Issue where
  id : Nat
deriving DecidableEq

/-- Observable effect of one `_check_releases` / `_check_issues` run: the
marker write (argument of `update_last_release` / `update_last_issue`) if any,
and the payload passed to the notification fan-out if any. -/
structure SingleCheckResult (α : Type) where
  markerWrite : Option String
  notified : Option α
deriving DecidableEq

/-- `RepositoryMonitor._check_releases` (monitor.py lines 79-94): if the fetch
yields a release whose `str(id)` differs from the stored marker, write the new
marker, and notify only when the old marker was not `None`. -/
def checkReleases (lastReleaseId : Option String) (fetch : HttpResult Release) :
    SingleCheckResult Release :=
  match makeRequest fetch with
  | none => ⟨none, none⟩
  | some rel =>
      let currentReleaseId := toString rel.id
      if lastReleaseId ≠ some currentReleaseId then
        ⟨some currentReleaseId, if lastReleaseId.isSome then some rel else none⟩
      else ⟨none, none⟩

/-- `RepositoryMonitor._check_issues` (monitor.py lines 96-114): same shape as
`_check_releases`, over the first element of a one-item issues page. -/
def checkIssues (lastIssueId : Option String) (fetch : HttpResult (List Issue)) :
    SingleCheckResult Issue :=
  match makeRequest fetch with
  | none => ⟨none, none⟩
  | some issues =>
      match issues with
      | [] => ⟨none, none⟩
      | latestIssue :: _ =>
          let currentIssueId := toString latestIssue.id
          if lastIssueId ≠ some currentIssueId then
            ⟨some currentIssueId, if lastIssueId.isSome then some latestIssue else none⟩
          else ⟨none, none⟩

/-! ### database.py — `RepositoryTracker` (SQLite store) -/

/-- One row of the `tracked_items` table as created by `init_db` (database.py
lines 27-40).  `item_key` carries a UNIQUE constraint; the marker columns start
NULL.  `lastStarredRepoIdsJson` models the TEXT column: `none` is SQL NULL,
`some none` is the JSON string `"null"`, `some (some l)` is a JSON list. -/
structure TrackedItemRow where
  rowId : Nat
  itemKey : String
  itemType : String
  owner : Option String
  repo : Option String
  githubUsername : Option String
  trackType : Option String
  lastReleaseId : Option String
  lastIssueId : Option String
  lastStarredRepoIdsJson : Option (Option (List String))
deriving DecidableEq

/-- One row of the `subscriptions` table (database.py lines 43-51).  The table
declares only the AUTOINCREMENT primary key — no UNIQUE constraint over
`(item_id, subscriber_id, subscriber_type)`. -/
structure SubscriptionRow where
  rowId : Nat
  itemId : Nat
  subscriberId : String
  subscriberType : String
deriving DecidableEq

/-- The store: both tables plus the AUTOINCREMENT counters (SQLite starts new
tables at rowid 1). -/
structure DB where
  items : List TrackedItemRow
  subs : List SubscriptionRow
  nextItemId : Nat
  nextSubId : Nat
deriving DecidableEq

/-- The store of a fresh database, right after `init_db`. -/
def DB.empty : DB := ⟨[], [], 1, 1⟩

/-- `RepositoryTracker._get_item_key` for repo items:
`f"{owner}/{repo}:{track_type}"`. -/
def repoItemKey (owner repo trackType : String) : String :=
  owner ++ "/" ++ repo ++ ":" ++ trackType

/-- `RepositoryTracker._get_item_key` for stars items: `f"stars:{username}"`. -/
def starsItemKey (githubUsername : String) : String :=
  "stars:" ++ githubUsername

/-- `SELECT id FROM tracked_items WHERE item_key = ?` — at most one row matches
because `item_key` is UNIQUE. -/
def findItem (db : DB) (key : String) : Option TrackedItemRow :=
  db.items.find? (fun it => it.itemKey = key)

/-- `INSERT INTO tracked_items (item_key, item_type, owner, repo, track_type)`
(database.py lines 85-88): the marker columns are left NULL. -/
def insertRepoItem (db : DB) (key owner repo trackType : String) : DB :=
  { db with
      items := db.items ++ [⟨db.nextItemId, key, "repo", some owner, some repo,
                             none, some trackType, none, none, none⟩]
      nextItemId := db.nextItemId + 1 }

/-- `INSERT INTO tracked_items (item_key, item_type, github_username,
last_starred_repo_ids_json)` with `json.dumps(None)` (database.py lines
123-126): the JSON column holds the string `"null"`. -/
def insertStarsItem (db : DB) (key githubUsername : String) : DB :=
  { db with
      items := db.items ++ [⟨db.nextItemId, key, "stars", none, none,
                             some githubUsername, none, none, none, some none⟩]
      nextItemId := db.nextItemId + 1 }

/-- `INSERT OR IGNORE INTO subscriptions (item_id, subscriber_id,
subscriber_type)` (database.py lines 107-110).  `OR IGNORE` suppresses a row
only on a uniqueness violation; the table's sole constraint is the
AUTOINCREMENT primary key, which never collides, so the insert always appends a
fresh row — even an exact duplicate of an existing subscription. -/
def insertOrIgnoreSub (db : DB) (itemId : Nat) (subscriberId subscriberType : String) : DB :=
  { db with
      subs := db.subs ++ [⟨db.nextSubId, itemId, subscriberId, subscriberType⟩]
      nextSubId := db.nextSubId + 1 }

/-- Destination selection in `add_tracked_repo_with_destination` (database.py
lines 96-104): `if chat_id and thread_id` → topic, `elif chat_id` → channel,
else user; ids rendered with `str`/f-strings. -/
def destinationPair (userId : Int) (chatId threadId : Option Int) : String × String :=
  if pyTruthyInt chatId && pyTruthyInt threadId then
    ("topic", toString (chatId.getD 0) ++ ":" ++ toString (threadId.getD 0))
  else if pyTruthyInt chatId then
    ("channel", toString (chatId.getD 0))
  else
    ("user", toString userId)

/-- One iteration of the `for track_type in track_types` loop of
`add_tracked_repo_with_destination` (database.py lines 77-111): find-or-create
the tracked item, then insert the subscription. -/
def addOneTrackType (userId : Int) (owner repo : String) (chatId threadId : Option Int)
    (db : DB) (trackType : String) : DB :=
  let key := repoItemKey owner repo trackType
  let db1 := if (findItem db key).isSome then db else insertRepoItem db key owner repo trackType
  match findItem db1 key with
  | none => db1
  | some it =>
      let p := destinationPair userId chatId threadId
      insertOrIgnoreSub db1 it.rowId p.2 p.1

/-- `RepositoryTracker.add_tracked_repo_with_destination` (database.py lines
66-112). -/
def addTrackedRepoWithDestination (db : DB) (userId : Int) (owner repo : String)
    (trackTypes : List String) (chatId threadId : Option Int) : DB :=
  trackTypes.foldl (addOneTrackType userId owner repo chatId threadId) db

/-- `RepositoryTracker.add_user_stars_tracking` (database.py lines 114-139). -/
def addUserStarsTracking (db : DB) (userId : Int) (githubUsername : String) : DB :=
  let key := starsItemKey githubUsername
  let db1 := if (findItem db key).isSome then db else insertStarsItem db key githubUsername
  match findItem db1 key with
  | none => db1
  | some it => insertOrIgnoreSub db1 it.rowId (toString userId) "user"

/-- The row condition of the `DELETE FROM subscriptions` statement in
`remove_tracked_repo`: `subscriber_id = ? AND subscriber_type = 'user' AND
item_id = <resolved item id>`. -/
def subMatches (userId : Int) (itemId : Nat) (s : SubscriptionRow) : Bool :=
  decide (s.subscriberId = toString userId) && decide (s.subscriberType = "user")
    && decide (s.itemId = itemId)

/-- One `DELETE FROM subscriptions WHERE subscriber_id = ? AND subscriber_type
= 'user' AND item_id = (SELECT id FROM tracked_items WHERE item_key = ?)`
(database.py lines 148-153).  When no tracked item has the key, the scalar
subquery is NULL and the comparison matches no row. -/
def deleteUserSubsForKey (db : DB) (userId : Int) (key : String) : DB :=
  match findItem db key with
  | none => db
  | some it =>
      { db with subs := db.subs.filter (fun s => !subMatches userId it.rowId s) }

/-- Whether subscription row `s` is one the `remove_tracked_repo` DELETE for
item key `key` matches in store `db`: the caller's user-type subscription to
the item holding that key (false when no item has the key). -/
def condByKey (db : DB) (userId : Int) (key : String) (s : SubscriptionRow) : Bool :=
  match findItem db key with
  | none => false
  | some it => subMatches userId it.rowId s

/-- Whether `s` is one of the caller's destination-bound subscriptions on repo
`(owner, repo)` for some watch kind, as resolved against store `db`. -/
def callerRepoSub (db : DB) (userId : Int) (owner repo : String) (s : SubscriptionRow) : Bool :=
  condByKey db userId (repoItemKey owner repo "releases") s
    || condByKey db userId (repoItemKey owner repo "issues") s

/-- `RepositoryTracker.remove_tracked_repo` (database.py lines 141-156): for
`track_type` in `["releases", "issues"]`, delete the caller's user-type
subscription rows for that item; the tracked items themselves are untouched. -/
def removeTrackedRepo (db : DB) (userId : Int) (owner repo : String) : DB :=
  ["releases", "issues"].foldl
    (fun d trackType => deleteUserSubsForKey d userId (repoItemKey owner repo trackType)) db

/-- `RepositoryTracker.cleanup_orphaned_items` (database.py lines 263-293):
delete every tracked item with no subscription row (`LEFT JOIN ... WHERE s.id
IS NULL`). -/
def cleanupOrphanedItems (db : DB) : DB :=
  { db with items := db.items.filter (fun it => db.subs.any (fun s => s.itemId = it.rowId)) }

/-- Decoding of the `last_starred_repo_ids_json` column in
`get_all_tracked_repos` (database.py lines 216-220): a NULL column is falsy, so
the `last_starred_repo_ids` key is never set and a later `.get` yields `None`;
the strings `"null"` and `"[...]"` are truthy and are json-decoded, `null`
becoming `None` and a list becoming a set. -/
def decodeStarIds : Option (Option (List String)) → Option (Finset String)
  | none => none
  | some none => none
  | some (some l) => some l.toFinset

/-- The per-item dictionary built by `get_all_tracked_repos` (database.py lines
178-225), as consumed by the monitor.  Note the row's `item_type` column lands
under the key `item_type`; no key named `type` is ever set.  Every user-type
subscriber id is added both to `user_subscribers` and to the legacy
`subscribers` set (lines 206-209). -/
structure RepoData where
  itemType : String
  owner : Option String
  repo : Option String
  githubUsername : Option String
  trackType : Option String
  lastReleaseId : Option String
  lastIssueId : Option String
  lastStarredRepoIds : Option (Finset String)
  userSubscribers : Finset Int
  channelSubscribers : Finset Int
  topicSubscribers : Finset String
  subscribers : Finset Int
deriving DecidableEq

/-- `repo_data.get("type")`: `get_all_tracked_repos` never sets a `"type"` key
(the column is `item_type`), so this lookup yields `None` for every item. -/
def RepoData.getTypeKey (_ : RepoData) : Option String := none

/-- `RepositoryTracker.get_all_tracked_repos` (database.py lines 178-225). -/
def getAllTrackedRepos (db : DB) : List RepoData :=
  db.items.map (fun it =>
    let subsOfItem := db.subs.filter (fun s => s.itemId = it.rowId)
    let userIds : Finset Int :=
      ((subsOfItem.filter (fun s => s.subscriberType = "user")).map
        (fun s => pyInt s.subscriberId)).toFinset
    { itemType := it.itemType
      owner := it.owner
      repo := it.repo
      githubUsername := it.githubUsername
      trackType := it.trackType
      lastReleaseId := it.lastReleaseId
      lastIssueId := it.lastIssueId
      lastStarredRepoIds := decodeStarIds it.lastStarredRepoIdsJson
      userSubscribers := userIds
      channelSubscribers :=
        ((subsOfItem.filter (fun s => s.subscriberType = "channel")).map
          (fun s => pyInt s.subscriberId)).toFinset
      topicSubscribers :=
        ((subsOfItem.filter (fun s => s.subscriberType = "topic")).map
          (fun s => s.subscriberId)).toFinset
      subscribers := userIds })

/-- `UPDATE tracked_items SET <field> = ? WHERE item_key = ?`
(`RepositoryTracker._update_field`, database.py lines 227-234). -/
def updateField (db : DB) (key : String) (f : TrackedItemRow → TrackedItemRow) : DB :=
  { db with items := db.items.map (fun it => if it.itemKey = key then f it else it) }

/-- `RepositoryTracker.update_last_release` (database.py lines 236-238). -/
def updateLastRelease (db : DB) (owner repo : String) (releaseId : String) : DB :=
  updateField db (repoItemKey owner repo "releases")
    (fun it => { it with lastReleaseId := some releaseId })

/-- `RepositoryTracker.update_last_issue` (database.py lines 240-242). -/
def updateLastIssue (db : DB) (owner repo : String) (issueId : String) : DB :=
  updateField db (repoItemKey owner repo "issues")
    (fun it => { it with lastIssueId := some issueId })

/-! ### monitor.py — notification fan-out and the poll pass -/

/-- A delivery destination as targeted by one `bot.send_message` call. -/
inductive Dest where
  | user (id : Int)
  | channel (chatId : Int)
  | topic (chatId threadId : Int)
deriving DecidableEq

/-- Parsing of a stored topic key inside the topic loop (monitor.py lines
153-160): `chat_id, thread_id = topic_key.split(':')` followed by two `int`
conversions, all inside the per-destination `try`; a key that does not split
into exactly two integer parts raises and produces no send for that
destination. -/
def parseTopicKey (s : String) : Option (Int × Int) :=
  match s.splitOn ":" with
  | [a, b] =>
      match pyIntOfString a, pyIntOfString b with
      | some chatId, some threadId => some (chatId, threadId)
      | _, _ => none
  | _ => none

/-- The multiset of `bot.send_message` delivery attempts made by
`RepositoryMonitor._send_release_notifications` (monitor.py lines 116-163) for
one notification; `_send_issue_notifications` (lines 165-212) iterates the same
four subscriber collections identically.  Python iterates each `set` in
unspecified order, so the attempts form a multiset: first the legacy
`subscribers` set (guarded by a non-emptiness test), then `user_subscribers`,
`channel_subscribers` and `topic_subscribers`. -/
def notificationTargets (rd : RepoData) : Multiset Dest :=
  (if rd.subscribers = ∅ then 0 else rd.subscribers.val.map Dest.user)
    + rd.userSubscribers.val.map Dest.user
    + rd.channelSubscribers.val.map Dest.channel
    + rd.topicSubscribers.val.filterMap
        (fun k => (parseTopicKey k).map (fun p => Dest.topic p.1 p.2))

/-- The fetch results available to one poll pass, indexed by owner and repo. -/
structure FetchOracle where
  releases : String → String → HttpResult Release
  issues : String → String → HttpResult (List Issue)

/-- `RepositoryMonitor._check_repository_updates` (monitor.py lines 59-77) for
one item dictionary: returns the updated store and the delivery attempts made.
`repo_data.get("type") == "stars"` compares against a key that
`get_all_tracked_repos` never sets, so the stars branch is never taken; the
`"owner" not in repo_data` guard never fires either (the keys are table
columns, present even when their value is `None`); then the track-type
dispatch runs `_check_releases` or `_check_issues`, whose marker write and
notification are applied to the store and fanned out. -/
def checkRepositoryUpdates (oracle : FetchOracle) (db : DB) (rd : RepoData) :
    DB × Multiset Dest :=
  if rd.getTypeKey = some "stars" then
    -- Dead branch: `RepoData.getTypeKey` is `none` for every item, so
    -- `_check_stars_updates` is never dispatched from the poll pass.
    (db, 0)
  else
    let trackType := rd.trackType
    if trackType = some "releases" then
      let r := checkReleases rd.lastReleaseId (oracle.releases (pyStr rd.owner) (pyStr rd.repo))
      let db1 := match r.markerWrite with
        | some v => updateLastRelease db (pyStr rd.owner) (pyStr rd.repo) v
        | none => db
      (db1, match r.notified with | some _ => notificationTargets rd | none => 0)
    else if trackType = some "issues" then
      let r := checkIssues rd.lastIssueId (oracle.issues (pyStr rd.owner) (pyStr rd.repo))
      let db1 := match r.markerWrite with
        | some v => updateLastIssue db (pyStr rd.owner) (pyStr rd.repo) v
        | none => db
      (db1, match r.notified with | some _ => notificationTargets rd | none => 0)
    else
      (db, 0)

/-- `RepositoryMonitor._check_all_repositories` (monitor.py lines 41-57): read
every tracked item once, then check each in turn; a per-item exception is
caught and logged, never aborting the pass.  Returns the store after the pass
and all delivery attempts of the pass. -/
def checkAllRepositories (oracle : FetchOracle) (db : DB) : DB × Multiset Dest :=
  (getAllTrackedRepos db).foldl
    (fun acc rd =>
      let r := checkRepositoryUpdates oracle acc.1 rd
      (r.1, acc.2 + r.2))
    (db, 0)

/-! ### handlers.py — wiring of the monitor -/

/-- The positional parameters of `RepositoryMonitor.__init__` besides `self`
(monitor.py line 17): `github_api, tracker, bot` — none carries a default and
the signature has no varargs. -/
def repositoryMonitorInitParams : List String := ["github_api", "tracker", "bot"]

/-- The positional arguments passed at the construction site in
`BotHandlers.__init__` (handlers.py line 35):
`RepositoryMonitor(self.github_api, self.tracker, self.token_manager, self.bot)`. -/
def botHandlersMonitorCallArgs : List String :=
  ["self.github_api", "self.tracker", "self.token_manager", "self.bot"]

/-- Binding of a plain positional Python call against a parameter list with no
defaults and no varargs: it binds (raising no TypeError) iff the arities agree. -/
def pythonPositionalCallBinds (params args : List String) : Bool :=
  args.length == params.length

/-! ### Concrete fixtures used by the claim theorems -/

/-- A pass in which every fetch comes back "resource not found" (HTTP 404). -/
def notFoundOracle : FetchOracle := ⟨fun _ _ => .notFound, fun _ _ => .notFound⟩

/-- A store holding one release-watch item `o/r` whose single subscriber is
user 7: `add_tracked_repo_with_destination(7, "o", "r", ["releases"])` on a
fresh database. -/
def dbOneUserSub : DB :=
  addTrackedRepoWithDestination DB.empty 7 "o" "r" ["releases"] none none

/-- The same `add_tracked_repo_with_destination` call applied a second time
with identical arguments. -/
def dbOneUserSubTwice : DB :=
  addTrackedRepoWithDestination dbOneUserSub 7 "o" "r" ["releases"] none none

/-! ### Helper lemmas -/

theorem checkRepositoryUpdates_notFound (db : DB) (rd : RepoData) :
    checkRepositoryUpdates notFoundOracle db rd = (db, 0) := by
  simp only [checkRepositoryUpdates, RepoData.getTypeKey, notFoundOracle,
    checkReleases, checkIssues, makeRequest]
  split_ifs <;> rfl

theorem checkAllRepositories_notFound_aux (rds : List RepoData) (acc : DB × Multiset Dest) :
    rds.foldl (fun acc rd =>
      let r := checkRepositoryUpdates notFoundOracle acc.1 rd
      (r.1, acc.2 + r.2)) acc = acc := by
  induction rds generalizing acc with
  | nil => rfl
  | cons rd rds ih =>
      have h := checkRepositoryUpdates_notFound acc.1 rd
      simp only [List.foldl_cons, h]
      simpa using ih acc

theorem deleteUserSubsForKey_items (db : DB) (userId : Int) (key : String) :
    (deleteUserSubsForKey db userId key).items = db.items := by
  unfold deleteUserSubsForKey
  cases findItem db key <;> rfl

theorem findItem_deleteUserSubsForKey (db : DB) (userId : Int) (key key2 : String) :
    findItem (deleteUserSubsForKey db userId key) key2 = findItem db key2 := by
  unfold findItem
  rw [deleteUserSubsForKey_items]

theorem deleteUserSubsForKey_subs (db : DB) (userId : Int) (key : String) :
    (deleteUserSubsForKey db userId key).subs
      = db.subs.filter (fun s => !condByKey db userId key s) := by
  rcases h : findItem db key with _ | it <;>
    simp [deleteUserSubsForKey, condByKey, h]

theorem condByKey_deleteUserSubsForKey (db : DB) (u : Int) (key : String)
    (u2 : Int) (key2 : String) (s : SubscriptionRow) :
    condByKey (deleteUserSubsForKey db u key) u2 key2 s = condByKey db u2 key2 s := by
  unfold condByKey
  rw [findItem_deleteUserSubsForKey]

/-! ### Claim theorems -/

/-- C1, counterexample.  The claim requires that five consecutive
"resource not found" polls escalate: a tracking-stopped notice to every
destination and deletion of the item, a sixth check finding it absent.  On the
code, six full poll passes in which every fetch returns 404 leave the store
bit-for-bit unchanged — the release-watch item is still present — and a pass
delivers nothing at all: no `consecutiveNotFoundCount` exists in the schema and
the monitor never deletes items. -/
theorem C1_counterexample :
    (fun d => (checkAllRepositories notFoundOracle d).1)^[6] dbOneUserSub = dbOneUserSub
    ∧ (findItem dbOneUserSub (repoItemKey "o" "r" "releases")).isSome = true
    ∧ (checkAllRepositories notFoundOracle dbOneUserSub).2 = 0 := by decide

/-- C1, amended.  A poll pass in which every fetch is classified "resource not
found" changes nothing: no failure counter is incremented (none exists in the
`tracked_items` schema), no tracking-stopped notice is delivered, and no item
is ever deleted — an item survives any number of consecutive not-found
checks. -/
theorem C1_amended_not_found_is_inert (db : DB) :
    checkAllRepositories notFoundOracle db = (db, 0) := by
  unfold checkAllRepositories
  exact checkAllRepositories_notFound_aux (getAllTrackedRepos db) (db, 0)

/-- C2, counterexample.  The claim requires every tracked-polling fetch to run
under some subscriber's personal credential, with the poll skipped when no
subscriber has one and never a fallback to the shared/global credential.  On
the code, with the global `config.GITHUB_TOKEN` set to `"GLOBAL"` and a token
store in which no subscriber (in particular user 7, the item's only
subscriber) has a personal token, the star poll is not skipped: it issues its
fetch under the shared `GitHubAPI()` instance's credential `"GLOBAL"` — the
monitor never consults the token store. -/
theorem C2_counterexample :
    starPollRequest (handlersSharedApiToken (some "GLOBAL")) (some "octocat")
      = some ⟨starredReposEndpoint, some "GLOBAL"⟩
    ∧ emptyTokenStore 7 = none := by decide

/-- C2, amended.  Every tracked-polling fetch runs under the single shared
`GitHubAPI` instance constructed in `BotHandlers.__init__`, whose credential is
the global `config.GITHUB_TOKEN` (or none when unset); no per-subscriber
credential resolution occurs, and a star poll is skipped only when the item
lacks a `github_username`, never for lack of a subscriber credential. -/
theorem C2_amended_shared_credential (globalToken : Option String)
    (githubUsername : Option String) (h : pyTruthyStr githubUsername = true) :
    starPollRequest (handlersSharedApiToken globalToken) githubUsername
      = some ⟨starredReposEndpoint, globalToken⟩ := by
  have hg : handlersSharedApiToken globalToken = globalToken := rfl
  rw [hg]
  simp [starPollRequest, h]

/-- Witness for the amended C2 at a concrete input. -/
theorem C2_amended_shared_credential_witness :
    starPollRequest (handlersSharedApiToken (some "T")) (some "alice")
      = some ⟨starredReposEndpoint, some "T"⟩ :=
  C2_amended_shared_credential (some "T") (some "alice") (by decide)

/-- C3.  For a Baselined star-watch item with stored id set `{1, 2, 3}` and a
fetched newest-first page `[5, 4, 2, 1]`, the detector emits exactly the
notifications for id 4 and then id 5 in that (chronological) order, and
unconditionally replaces the stored baseline with exactly `{5, 4, 2, 1}`,
silently dropping id 3. -/
theorem C3_star_diff_concrete :
    checkStarsUpdates (some "octocat") (some ({"1", "2", "3"} : Finset String))
      (.ok [⟨5⟩, ⟨4⟩, ⟨2⟩, ⟨1⟩])
      = ⟨[⟨4⟩, ⟨5⟩], some ({"5", "4", "2", "1"} : Finset String)⟩
    ∧ "3" ∉ ({"5", "4", "2", "1"} : Finset String) := by decide

/-- C4, counterexample.  The claim requires a transient transport/timeout
fetch failure to leave every item's stored marker unchanged.  On the code, for
a Baselined star-watch item with stored id set `{1}`, a timed-out fetch is
collapsed by `_make_request` to `None`, which the monitor cannot tell apart
from "the user has no stars": it overwrites the stored set with the empty set
(it does emit no notification). -/
theorem C4_counterexample :
    checkStarsUpdates (some "octocat") (some ({"1"} : Finset String)) .timeout
      = ⟨[], some ∅⟩
    ∧ (∅ : Finset String) ≠ ({"1"} : Finset String) := by decide

/-- C4, amended.  A poll whose fetch fails with a transient transport/timeout
error emits no notification and is not escalated; for release-watch and
issue-watch items it leaves the stored marker unchanged, but for a star-watch
item in Baselined state it resets the stored id set to the empty set (the
error is indistinguishable from an empty starred list), while an Uninitialized
star-watch item stays unchanged. -/
theorem C4_amended_transient (m : Option String) (u : String) (known : Finset String)
    (hu : pyTruthyStr (some u) = true) :
    checkReleases m .timeout = ⟨none, none⟩
    ∧ checkIssues m .timeout = ⟨none, none⟩
    ∧ checkStarsUpdates (some u) (some known) .timeout = ⟨[], some ∅⟩
    ∧ checkStarsUpdates (some u) none .timeout = ⟨[], none⟩ := by
  refine ⟨rfl, rfl, ?_, ?_⟩ <;> simp [checkStarsUpdates, makeRequest, hu]

/-- Witness for the amended C4 at a concrete input. -/
theorem C4_amended_transient_witness :
    checkReleases (some "1") .timeout = ⟨none, none⟩
    ∧ checkIssues (some "1") .timeout = ⟨none, none⟩
    ∧ checkStarsUpdates (some "alice") (some ({"1"} : Finset String)) .timeout
        = ⟨[], some ∅⟩
    ∧ checkStarsUpdates (some "alice") none .timeout = ⟨[], none⟩ :=
  C4_amended_transient (some "1") "alice" {"1"} (by decide)

/-- C5, code bug.  The claim (and the dispatcher's own legacy-format comments)
require each subscribed destination to receive at most one delivery attempt
per notification.  On the code, `get_all_tracked_repos` puts every user-type
subscriber into both `subscribers` (legacy) and `user_subscribers`, and
`_send_release_notifications` loops over both sets, so the single user
subscriber 7 of a release-watch item gets two `send_message` attempts for one
notification. -/
theorem C5_double_delivery_bug :
    (getAllTrackedRepos dbOneUserSub).map
      (fun rd => Multiset.count (Dest.user 7) (notificationTargets rd)) = [2] := by decide

/-- C6, counterexample.  The claim requires the first successful poll of any
Uninitialized item to store the fetched id (or id set) as the new marker.  On
the code, a star-watch item with no baseline whose fetch successfully returns
an empty page gets no marker write at all — the item stays Uninitialized
instead of being baselined with the empty set (notifications are still
zero). -/
theorem C6_counterexample :
    checkStarsUpdates (some "octocat") none (.ok []) = ⟨[], none⟩
    ∧ (⟨[], none⟩ : StarsCheckResult) ≠ ⟨[], some ∅⟩ := by decide

/-- C6, amended.  For every item whose marker is `None`, the first successful
poll emits zero notifications and stores the fetched id (release/issue) or the
full fetched id set (star watch, nonempty page) as the new marker — except
that a star-watch poll whose fetch returns an empty page leaves the marker
unset (`None`). -/
theorem C6_amended_first_poll (rel : Release) (i : Issue) (rest : List Issue)
    (u : String) (page : List StarRepo)
    (hu : pyTruthyStr (some u) = true) (hp : page ≠ []) :
    checkReleases none (.ok rel) = ⟨some (toString rel.id), none⟩
    ∧ checkIssues none (.ok (i :: rest)) = ⟨some (toString i.id), none⟩
    ∧ checkStarsUpdates (some u) none (.ok page)
        = ⟨[], some ((page.map (fun r => toString r.id)).toFinset)⟩
    ∧ checkStarsUpdates (some u) none (.ok []) = ⟨[], none⟩ := by
  refine ⟨?_, ?_, ?_, ?_⟩
  · simp [checkReleases, makeRequest]
  · simp [checkIssues, makeRequest]
  · cases page with
    | nil => exact absurd rfl hp
    | cons p ps => simp [checkStarsUpdates, makeRequest, hu]
  · simp [checkStarsUpdates, makeRequest, hu]

/-- Witness for the amended C6 at a concrete input. -/
theorem C6_amended_first_poll_witness :
    checkReleases none (.ok ⟨9⟩) = ⟨some (toString (9 : Nat)), none⟩
    ∧ checkIssues none (.ok [⟨8⟩]) = ⟨some (toString (8 : Nat)), none⟩
    ∧ checkStarsUpdates (some "alice") none (.ok [⟨5⟩])
        = ⟨[], some ((([⟨5⟩] : List StarRepo).map (fun r => toString r.id)).toFinset)⟩
    ∧ checkStarsUpdates (some "alice") none (.ok []) = ⟨[], none⟩ :=
  C6_amended_first_poll ⟨9⟩ ⟨8⟩ [] "alice" [⟨5⟩] (by decide) (by decide)

/-- C7.  For a Baselined release-watch or issue-watch item (stored marker
`m`), a poll whose fetched id equals the stored marker, or whose fetch returns
nothing, makes no marker write and emits no notification. -/
theorem C7_baselined_no_change (m : String)
    (fr : HttpResult Release) (fi : HttpResult (List Issue))
    (hr : ∀ rel, makeRequest fr = some rel → toString rel.id = m)
    (hi : ∀ i rest, makeRequest fi = some (i :: rest) → toString i.id = m) :
    checkReleases (some m) fr = ⟨none, none⟩
    ∧ checkIssues (some m) fi = ⟨none, none⟩ := by
  constructor
  · cases fr with
    | ok rel =>
        have h := hr rel rfl
        simp [checkReleases, makeRequest, h]
    | notFound => rfl
    | timeout => rfl
    | otherError => rfl
  · cases fi with
    | ok issues =>
        cases issues with
        | nil => rfl
        | cons i rest =>
            have h := hi i rest rfl
            simp [checkIssues, makeRequest, h]
    | notFound => rfl
    | timeout => rfl
    | otherError => rfl

/-- Witness for C7 at a concrete input. -/
theorem C7_baselined_no_change_witness :
    checkReleases (some "1") (.ok ⟨1⟩) = ⟨none, none⟩
    ∧ checkIssues (some "1") (.ok [⟨1⟩]) = ⟨none, none⟩ :=
  C7_baselined_no_change "1" (.ok ⟨1⟩) (.ok [⟨1⟩])
    (by intro rel h; injection h with h2; subst h2; decide)
    (by intro i rest h; injection h with h2; injection h2 with h3 h4; subst h3; decide)

/-- C8.  `remove_tracked_repo` never touches the tracked items themselves; it
deletes exactly the caller's user-type subscriptions for the repo's release
and issue watch kinds; and a subsequent `cleanup_orphaned_items` keeps exactly
the items that still have at least one subscription row. -/
theorem C8_unsubscribe_then_purge (db : DB) (userId : Int) (owner repo : String) :
    (removeTrackedRepo db userId owner repo).items = db.items
    ∧ (removeTrackedRepo db userId owner repo).subs
        = db.subs.filter (fun s => !callerRepoSub db userId owner repo s)
    ∧ ∀ it : TrackedItemRow,
        it ∈ (cleanupOrphanedItems (removeTrackedRepo db userId owner repo)).items
          ↔ it ∈ (removeTrackedRepo db userId owner repo).items
            ∧ ∃ s ∈ (removeTrackedRepo db userId owner repo).subs, s.itemId = it.rowId := by
  have hcomp : removeTrackedRepo db userId owner repo
      = deleteUserSubsForKey
          (deleteUserSubsForKey db userId (repoItemKey owner repo "releases"))
          userId (repoItemKey owner repo "issues") := rfl
  refine ⟨?_, ?_, ?_⟩
  · rw [hcomp, deleteUserSubsForKey_items, deleteUserSubsForKey_items]
  · rw [hcomp, deleteUserSubsForKey_subs, deleteUserSubsForKey_subs, List.filter_filter]
    refine List.filter_congr (fun s _ => ?_)
    rw [condByKey_deleteUserSubsForKey]
    unfold callerRepoSub
    rw [Bool.not_or]
    exact Bool.and_comm _ _
  · intro it
    simp [cleanupOrphanedItems, List.mem_filter, List.any_eq_true]

/-- C9, code bug.  `add_tracked_repo_with_destination` is meant to be
idempotent ("Add subscription if it doesn't exist", via `INSERT OR IGNORE`),
but the `subscriptions` table declares no UNIQUE constraint, so `OR IGNORE`
never fires: repeating the identical call appends a second, duplicate
subscription row, leaving the store in a different state than one call. -/
theorem C9_add_subscription_not_idempotent :
    dbOneUserSubTwice ≠ dbOneUserSub
    ∧ dbOneUserSub.subs.length = 1
    ∧ dbOneUserSubTwice.subs.length = 2 := by decide

/-- C10, code bug.  `BotHandlers.__init__` constructs the monitor with four
positional arguments (`self.github_api, self.tracker, self.token_manager,
self.bot`) while `RepositoryMonitor.__init__` accepts three besides `self`
(`github_api, tracker, bot`) with no defaults, so the call cannot bind and
raises a TypeError: the poll scheduler cannot be instantiated through the
exposed wiring. -/
theorem C10_monitor_wiring_arity_mismatch :
    pythonPositionalCallBinds repositoryMonitorInitParams botHandlersMonitorCallArgs = false
    ∧ repositoryMonitorInitParams.length = 3
    ∧ botHandlersMonitorCallArgs.length = 4 := by decide

end RepoBot
